import Mathlib

/-!
Verification of the lint-fix maintenance scripts of this repository
(`fix_eslint.py`, `fix_all_eslint.py`, `fix_final_eslint.py`).

The three scripts share one helper, `fix_file`, which reads a file, applies
an ordered list of `re.sub` substitutions (with `re.MULTILINE | re.DOTALL`)
to its whole text, and writes the result back only when it changed, printing
a `Fixed:` line.  Each script then performs its own tail step (in the final
revision: writing `eslint.config.mjs`, removing legacy config files) and
finally shells out to `npm run lint`, printing the captured stdout and
stderr.

The embedding below models:
  * the filesystem as an association list from path to content,
  * the observable behaviour of a script as a list of events (prints,
    reads, writes, removals, subprocess runs),
  * Python `re` patterns by an executable regular-expression engine
    (parsing the pattern strings of the scripts and matching with the
    backtracking priority of Python's engine, `^` in MULTILINE semantics
    and `.` in DOTALL semantics).  The scripts' patterns use literals,
    escapes, character classes, greedy and lazy `*` `+` `?`, groups and
    the `^` anchor; no pattern uses backreferences, so group captures do
    not influence any match, and no replacement string evaluated by a
    theorem below uses a template escape, so replacements are inserted
    literally, as `re.sub` does for such strings.
-/

namespace LintFix

/-- A filesystem: association list from path to file content.  A write
prepends, shadowing any older entry; a read takes the first entry. -/
abbrev FS : Type := List (String × String)

/-- Content of a file, `none` when the path does not exist
(models both `os.path.exists` and `open(...).read()`). -/
def readFile (fs : FS) (p : String) : Option String :=
  (List.find? (fun kv => kv.1 == p) fs).map (fun kv => kv.2)

/-- `os.path.exists`: a path exists when it has content. -/
def existsFile (fs : FS) (p : String) : Bool :=
  (readFile fs p).isSome

/-- `open(p, 'w').write(c)`: full-content replace of the file at `p`. -/
def writeFile (fs : FS) (p : String) (c : String) : FS :=
  (p, c) :: List.filter (fun kv => !(kv.1 == p)) fs

/-- `os.remove p`: drop the file at `p`. -/
def removeFile (fs : FS) (p : String) : FS :=
  List.filter (fun kv => !(kv.1 == p)) fs

/-- Observable events of a script run: console prints, file reads, file
writes, file removals and subprocess invocations. -/
inductive Ev : Type where
  | eprint (line : String)
  | eread (path : String)
  | ewrite (path : String) (content : String)
  | eremove (path : String)
  | erun (cmd : List String)
deriving DecidableEq, Repr

/-- One item of a character class `[...]`: a literal character, `\s`
(whitespace) or `\S` (non-whitespace). -/
inductive CItem : Type where
  | ch (c : Char)
  | wsp
  | nwsp
deriving DecidableEq, Repr

/-- Abstract syntax of the regular expressions the scripts use.  `star`
carries a laziness flag (`x*?` versus `x*`).  `bol` is the `^` anchor,
which under `re.MULTILINE` matches at the start of the text and after
every newline.  `any` is `.`, which under `re.DOTALL` matches every
character. -/
inductive Regexp : Type where
  | eps
  | chr (c : Char)
  | any
  | bol
  | cls (neg : Bool) (items : List CItem)
  | cat (r1 r2 : Regexp)
  | alt (r1 r2 : Regexp)
  | star (r : Regexp) (lzy : Bool)
  | grp (r : Regexp)
deriving DecidableEq, Repr

/-- Python `\s` over the ASCII characters the repository's files use. -/
def isWsp (c : Char) : Bool :=
  c = ' ' || c = '\t' || c = '\n' || c = '\x0d' || c = '\x0b' || c = '\x0c'

/-- Whether one class item accepts a character. -/
def citemAccepts (it : CItem) (c : Char) : Bool :=
  match it with
  | .ch c2 => c == c2
  | .wsp => isWsp c
  | .nwsp => !(isWsp c)

/-- Whether a (possibly negated) character class accepts a character. -/
def clsAccepts (neg : Bool) (items : List CItem) (c : Char) : Bool :=
  if neg then !(items.any (fun it => citemAccepts it c))
  else items.any (fun it => citemAccepts it c)

/-- Structural size of a regexp, used to bound the matcher's fuel. -/
def rsize : Regexp → Nat
  | .eps => 1
  | .chr _ => 1
  | .any => 1
  | .bol => 1
  | .cls _ _ => 1
  | .cat r1 r2 => rsize r1 + rsize r2 + 1
  | .alt r1 r2 => rsize r1 + rsize r2 + 1
  | .star r _ => rsize r + 1
  | .grp r => rsize r + 1

/-- Backtracking matcher in continuation-passing style, mirroring the
priority order of Python's engine: alternatives left to right, greedy
quantifiers prefer longer matches, lazy ones shorter.  `s` is the suffix
still to be read, `bl` records whether the current position is at the
beginning of the text or right after a newline (for the MULTILINE `^`),
and `k` is the continuation receiving the remaining suffix.  `fl` is
fuel; it only bounds the recursion depth and is chosen large enough in
`matchAt` that it is never exhausted on the inputs considered.  A `star`
iteration must consume at least one character, as in Python, where a
quantifier never repeats an empty match. -/
def mrun : Nat → Regexp → List Char → Bool → (List Char → Bool → Option (List Char)) → Option (List Char)
  | 0, _, _, _, _ => none
  | fl + 1, re, s, bl, k =>
    match re with
    | .eps => k s bl
    | .chr c =>
      match s with
      | [] => none
      | c2 :: t => if c2 == c then k t (c2 == '\n') else none
    | .any =>
      match s with
      | [] => none
      | c2 :: t => k t (c2 == '\n')
    | .bol => if bl then k s bl else none
    | .cls neg items =>
      match s with
      | [] => none
      | c2 :: t => if clsAccepts neg items c2 then k t (c2 == '\n') else none
    | .cat r1 r2 => mrun fl r1 s bl (fun s2 b2 => mrun fl r2 s2 b2 k)
    | .alt r1 r2 =>
      match mrun fl r1 s bl k with
      | some res => some res
      | none => mrun fl r2 s bl k
    | .star r lzy =>
      if lzy then
        match k s bl with
        | some res => some res
        | none =>
          mrun fl r s bl (fun s2 b2 =>
            if s2.length < s.length then mrun fl (.star r lzy) s2 b2 k else none)
      else
        match mrun fl r s bl (fun s2 b2 =>
            if s2.length < s.length then mrun fl (.star r lzy) s2 b2 k else none) with
        | some res => some res
        | none => k s bl
    | .grp r => mrun fl r s bl k

/-- The leftmost-priority match of `re` at the current position: `some rem`
when `re` matches a prefix of `s` leaving `rem`, `none` otherwise. -/
def matchAt (re : Regexp) (s : List Char) (bl : Bool) : Option (List Char) :=
  mrun ((s.length + 2) * (rsize re + 2)) re s bl (fun rem _ => some rem)

/-- Scan for the substitution, as `re.sub` does: at each position try a
match; on a non-empty match emit the replacement and resume after it, on
an empty match emit the replacement plus the current character, with no
match emit the current character.  `fl` is fuel, at least the number of
remaining positions. -/
def subGo (re : Regexp) (rep : List Char) : Nat → Bool → List Char → List Char
  | 0, _, s => s
  | fl + 1, bl, s =>
    match matchAt re s bl with
    | some rem =>
      if rem.length < s.length then
        let consumed := s.take (s.length - rem.length)
        let b2 := consumed.getLast? == some '\n'
        rep ++ subGo re rep fl b2 rem
      else
        match s with
        | [] => rep
        | c :: t => rep ++ c :: subGo re rep fl (c == '\n') t
    | none =>
      match s with
      | [] => []
      | c :: t => c :: subGo re rep fl (c == '\n') t

/-- Whether `re` matches at the current or any later position. -/
def hasMatchGo (re : Regexp) : Nat → Bool → List Char → Bool
  | 0, _, _ => false
  | fl + 1, bl, s =>
    (matchAt re s bl).isSome ||
      match s with
      | [] => false
      | c :: t => hasMatchGo re fl (c == '\n') t

/-- Items of a character class, read until the closing `]`.  The classes
the scripts use contain literal characters and the escapes `\s`, `\S`,
`\n`, `\t`; other escaped characters stand for themselves. -/
def parseClsItems : List Char → Option (List CItem × List Char)
  | [] => none
  | ']' :: t => some ([], t)
  | '\\' :: c :: t =>
    (parseClsItems t).map (fun pr =>
      ((if c == 's' then CItem.wsp
        else if c == 'S' then CItem.nwsp
        else if c == 'n' then CItem.ch '\n'
        else if c == 't' then CItem.ch '\t'
        else CItem.ch c) :: pr.1, pr.2))
  | c :: t =>
    (parseClsItems t).map (fun pr => (CItem.ch c :: pr.1, pr.2))

/-- A character class after the opening `[`: optional leading `^`
negation, then items up to `]`. -/
def parseCls (s : List Char) : Option (Regexp × List Char) :=
  match s with
  | '^' :: t => (parseClsItems t).map (fun pr => (Regexp.cls true pr.1, pr.2))
  | t => (parseClsItems t).map (fun pr => (Regexp.cls false pr.1, pr.2))

mutual

/-- Alternation level of the pattern grammar: sequences separated by `|`. -/
def parseAlt : Nat → List Char → Option (Regexp × List Char)
  | 0, _ => none
  | fl + 1, s =>
    match parseSeq fl s with
    | none => none
    | some (r, rest) =>
      match rest with
      | '|' :: t => (parseAlt fl t).map (fun pr => (Regexp.alt r pr.1, pr.2))
      | _ => some (r, rest)

/-- Sequence level: concatenation of quantified atoms, stopping at `)`,
`|` or the end of the pattern. -/
def parseSeq : Nat → List Char → Option (Regexp × List Char)
  | 0, _ => none
  | fl + 1, s =>
    match s with
    | [] => some (.eps, [])
    | c :: _ =>
      if c == ')' || c == '|' then some (.eps, s)
      else
        match parseItem fl s with
        | none => none
        | some (r, rest) =>
          (parseSeq fl rest).map (fun pr => (Regexp.cat r pr.1, pr.2))

/-- One atom with an optional quantifier `*` `+` `?`, each optionally
made lazy by a following `?`.  `x+` is `x x*` and `x?` is `x | ε` (the
lazy variant preferring the empty branch). -/
def parseItem : Nat → List Char → Option (Regexp × List Char)
  | 0, _ => none
  | fl + 1, s =>
    match parseAtom fl s with
    | none => none
    | some (r, rest) =>
      match rest with
      | '*' :: '?' :: t => some (.star r true, t)
      | '*' :: t => some (.star r false, t)
      | '+' :: '?' :: t => some (.cat r (.star r true), t)
      | '+' :: t => some (.cat r (.star r false), t)
      | '?' :: '?' :: t => some (.alt .eps r, t)
      | '?' :: t => some (.alt r .eps, t)
      | _ => some (r, rest)

/-- One atom: a group, a class, `.`, `^`, an escape, or a literal
character.  Python treats `\x7b` and `\x7d` not forming a repetition
count as literals, and the scripts' patterns use them only as literals.
Escaped characters other than `\n`, `\t`, `\s`, `\S` stand for
themselves; the scripts' patterns contain no backreference. -/
def parseAtom : Nat → List Char → Option (Regexp × List Char)
  | 0, _ => none
  | fl + 1, s =>
    match s with
    | [] => none
    | '(' :: t =>
      match parseAlt fl t with
      | some (r, ')' :: t2) => some (.grp r, t2)
      | _ => none
    | '[' :: t => parseCls t
    | '.' :: t => some (.any, t)
    | '^' :: t => some (.bol, t)
    | '\\' :: c :: t =>
      if c == 'n' then some (.chr '\n', t)
      else if c == 't' then some (.chr '\t', t)
      else if c == 's' then some (.cls false [CItem.wsp], t)
      else if c == 'S' then some (.cls false [CItem.nwsp], t)
      else some (.chr c, t)
    | c :: t => some (.chr c, t)

end

/-- Parse a whole pattern string; `none` on a malformed pattern. -/
def parseRx (p : String) : Option Regexp :=
  match parseAlt (4 * p.length + 8) p.data with
  | some (r, []) => some r
  | _ => none

/-- `re.sub(pattern, rep, s, flags=re.MULTILINE | re.DOTALL)` for the
patterns and replacement strings the scripts use: the parsed pattern is
substituted throughout `s`, the replacement inserted literally.  A
pattern that does not parse leaves `s` unchanged; every pattern in the
scripts' tables parses. -/
def reSub (pat : String) (rep : String) (s : String) : String :=
  match parseRx pat with
  | none => s
  | some re => String.mk (subGo re rep.data (s.data.length + 1) true s.data)

/-- Whether `pat` has a match anywhere in `s` (at any position, in the
same MULTILINE/DOTALL semantics as `reSub`). -/
def hasMatch (pat : String) (s : String) : Bool :=
  match parseRx pat with
  | none => false
  | some re => hasMatchGo re (s.data.length + 1) true s.data

/-- The loop of `fix_file`:
`for pattern, replacement in fixes: content = re.sub(pattern, replacement, content, ...)` —
the left-to-right fold of `reSub` over the fixes. -/
def applyFixes (fixes : List (String × String)) (content : String) : String :=
  fixes.foldl (fun c pr => reSub pr.1 pr.2 c) content

/-- `fix_file(filepath, fixes)`: skip with a `File not found` line when the
path does not exist; otherwise read the content, fold the substitutions
over it, and when the result differs from the original write it back and
print a `Fixed:` line.  Returns the new filesystem and the events in
order. -/
def fix_file (fs : FS) (filepath : String) (fixes : List (String × String)) : FS × List Ev :=
  match readFile fs filepath with
  | none => (fs, [Ev.eprint ("File not found: " ++ filepath)])
  | some content =>
    let newContent := applyFixes fixes content
    if newContent == content then (fs, [Ev.eread filepath])
    else
      (writeFile fs filepath newContent,
       [Ev.eread filepath, Ev.ewrite filepath newContent,
        Ev.eprint ("Fixed: " ++ filepath)])

/-- A script's patch table applied in order: one `fix_file` call per
(path, fixes) entry, events concatenated in call order. -/
def runFixes (fs : FS) (table : List (String × List (String × String))) : FS × List Ev :=
  match table with
  | [] => (fs, [])
  | (p, fixes) :: rest =>
    let r1 := fix_file fs p fixes
    let r2 := runFixes r1.1 rest
    (r2.1, r1.2 ++ r2.2)

/-- Tail of every script:
`print("\nRunning ESLint to check remaining issues...")`, then
`subprocess.run(['npm', 'run', 'lint'], capture_output=True, text=True)`
runs to completion yielding `(stdout, stderr)`, then
`print(result.stdout)` and `print(result.stderr)`. -/
def lintTail (lint : String × String) : List Ev :=
  [Ev.eprint "\nRunning ESLint to check remaining issues...",
   Ev.erun ["npm", "run", "lint"],
   Ev.eprint lint.1, Ev.eprint lint.2]

/-- The legacy-config removal of `fix_final_eslint.py`: each of
`.eslintrc.json` and `.eslintignore` is removed only under an
`os.path.exists` guard, with a `Removed` line when the removal happens. -/
def removeLegacy (fs : FS) : FS × List Ev :=
  let s1 :=
    if existsFile fs ".eslintrc.json" then
      (removeFile fs ".eslintrc.json",
       [Ev.eremove ".eslintrc.json", Ev.eprint "Removed .eslintrc.json"])
    else (fs, [])
  let s2 :=
    if existsFile s1.1 ".eslintignore" then
      (removeFile s1.1 ".eslintignore",
       [Ev.eremove ".eslintignore", Ev.eprint "Removed .eslintignore"])
    else (s1.1, [])
  (s2.1, s1.2 ++ s2.2)

/-- The patch table of `fix_eslint.py`: each `fix_file` call's path and fixes, in call order. -/
def fixEslintTable : List (String × List (String × String)) := [
  ("src/app/(dashboard)/assistant/page.tsx",
   [
    ("import \x7b format \x7d from \\\x27date-fns\\\x27\\n",
     ""),
    (": any\\[\\]",
     ": unknown[]"),
    ("catch \\(e: any\\)",
     "catch (e: unknown)"),
    ("onChange: \\(messages: any\\[\\]\\)",
     "onChange: (messages: Message[])"),
    ("setMessages\\(prev => \\(prev as any\\)",
     "setMessages(prev => (prev as Message[])"),
    ("const \\[threadId, messageId\\] = e\\.detail as any;",
     "const [_threadId, _messageId] = e.detail as [string, string];")
   ]),
  ("src/app/api/reports/schedule/route.tsx",
   [
    ("const mockScheduledReports: any\\[\\]",
     "const mockScheduledReports: unknown[]"),
    ("\x7d catch \\(error\\) \x7b",
     "\x7d catch (_error) \x7b")
   ]),
  ("src/app/reports/[id]/page.tsx",
   [
    ("import \x7b .*, Calendar, Clock,.*",
     "import \x7b ArrowLeft, Download, Mail, Share2, CheckCircle2, XCircle, AlertCircle \x7d from \x27lucide-react\x27;"),
    ("const \\[reportData, setReportData\\] = useState<any>",
     "const [reportData, setReportData] = useState<unknown>"),
    ("\\.map\\(\\(run: any\\)",
     ".map((run: unknown)")
   ]),
  ("src/app/runs/[id]/page.tsx",
   [
    ("import \x7b[\\s\\S]*?ResponsiveContainer[\\s\\S]*?\x7d from \\\x27recharts\\\x27",
     "import \x7b\n  LineChart,\n  Line,\n  XAxis,\n  YAxis,\n  CartesianGrid,\n  Tooltip,\n  ResponsiveContainer\n\x7d from \x27recharts\x27")
   ]),
  ("src/components/reports/ReportModal.tsx",
   [
    ("const \\[reportData, setReportData\\] = useState<any>",
     "const [reportData, setReportData] = useState<unknown>")
   ]),
  ("src/components/reports/ReportPreview.tsx",
   [
    ("const \\[selectedInstruments, setSelectedInstruments\\] = useState<string\\[\\]>\\(\\[\\]\\);[\\n\\s]*",
     ""),
    ("const CustomTooltip = \\(\x7b active, payload, label \x7d: any\\)",
     "const CustomTooltip = (\x7b active, payload, label \x7d: \x7b active?: boolean; payload?: Array<\x7b color: string; name: string; value: number \x7d>; label?: string \x7d)"),
    ("payload\\.map\\(\\(entry: any, index: number\\)",
     "payload.map((entry, index: number)"),
    ("label=\\\x7b\\(props: any\\)",
     "label=\x7b(props: \x7b percent: number \x7d)")
   ]),
  ("src/components/reports/ReportPlanCard.tsx",
   [
    ("import \x7b[\\s\\S]*?DocumentArrowDownIcon[\\s\\S]*?\x7d from[^\\n]+\\n",
     "import \x7b CalendarIcon, ChartBarIcon, BeakerIcon, ClockIcon \x7d from \x27@heroicons/react/24/outline\x27;\n")
   ]),
  ("src/app/signup/page.tsx",
   [
    ("const \x7b data, error \x7d",
     "const \x7b error \x7d")
   ]),
  ("src/contexts/supabase-session-context.tsx",
   [
    ("import \x7b signIn, signUp, signOut, getCurrentUser, getSession \x7d",
     "import \x7b signIn, signUp, signOut, getSession \x7d"),
    ("import \x7b UserRole \x7d from[^\\n]+\\n",
     ""),
    ("const \x7b session, user \x7d",
     "const \x7b user \x7d"),
    ("const \x7b data, error \x7d",
     "const \x7b data \x7d"),
    ("\x7d, \\[\\]\\)",
     "\x7d, [supabase.auth])")
   ]),
  ("src/contexts/chat-context.tsx",
   [
    ("assistantMessageId: string \\| any",
     "assistantMessageId: string | unknown")
   ]),
  ("src/lib/security/xss-protection.ts",
   [
    ("sanitizeObject\\(obj: any\\)",
     "sanitizeObject(obj: Record<string, unknown>)")
   ]),
  ("src/lib/security/auth-manager.ts",
   [
    ("function validateProductionConfig[\\s\\S]*?^\x7d",
     "")
   ]),
  ("src/lib/supabase/server.ts",
   [
    ("\x7d catch \\(error\\) \x7b",
     "\x7d catch (_error) \x7b")
   ]),
  ("src/app/api/onboarding/profile/route.ts",
   [
    ("\x7d catch \\(error\\) \x7b",
     "\x7d catch (_error) \x7b"),
    ("\x7d catch \\(dbError\\) \x7b",
     "\x7d catch (_dbError) \x7b"),
    ("const _ =",
     "const _unused =")
   ]),
  ("src/app/api/onboarding/role/route.ts",
   [
    ("\x7d catch \\(dbError\\) \x7b",
     "\x7d catch (_dbError) \x7b")
   ]),
  ("src/app/api/users/sync/route.ts",
   [
    ("export async function POST\\(request: NextRequest\\)",
     "export async function POST(_request: NextRequest)")
   ])
]

/-- The patch table of `fix_all_eslint.py` (with `assistant_fixes` assembled by its three `append` calls), in call order. -/
def fixAllTable : List (String × List (String × String)) := [
  ("src/app/(dashboard)/assistant/page.tsx",
   [
    ("(const handleSubmit = async \\(e: React\\.FormEvent\\) => \x7b[^\x7d]*?const originalInput = input\\.trim\\(\\)\\n)",
     "\\1\\n    // Type for window with protocol\\n    interface WindowWithProtocol extends Window \x7b\\n      __pendingProtocol?: \x7b protocolId: string; threadId: string; messageId: string \x7d;\\n    \x7d\\n"),
    ("\\(window as any\\)\\.__pendingProtocol",
     "(window as unknown as WindowWithProtocol).__pendingProtocol"),
    ("const \\\x7b protocolId, threadId, messageId \\\x7d = ",
     "const \x7b protocolId \x7d = ")
   ]),
  ("src/app/api/reports/schedule/route.ts",
   [
    ("const mockScheduledReports: any\\[\\]",
     "const mockScheduledReports: unknown[]"),
    ("\x7d catch \\(error\\) \x7b",
     "\x7d catch (_error) \x7b")
   ]),
  ("src/app/reports/[id]/page.tsx",
   [
    ("import \\\x7b ArrowLeft, Download, Mail, Share2, CheckCircle2, XCircle, AlertCircle \\\x7d",
     "import \x7b\x7d")
   ]),
  ("src/app/runs/[id]/page.tsx",
   [
    ("import \\\x7b[^\x7d]+\\\x7d from \x27lucide-react\x27",
     "import \x7b ArrowLeft, Download, Share2, Activity, Clock, Beaker, TrendingUp, AlertCircle, CheckCircle, XCircle, FileText \x7d from \x27lucide-react\x27"),
    ("import \\\x7b[^\x7d]+\\\x7d from \x27recharts\x27",
     "import \x7b LineChart, Line, XAxis, YAxis, CartesianGrid, Tooltip, ResponsiveContainer, PieChart, Pie, Cell, Legend \x7d from \x27recharts\x27")
   ]),
  ("src/components/reports/ReportPlanCard.tsx",
   [
    ("import \\\x7b CalendarIcon, ChartBarIcon, BeakerIcon, ClockIcon \\\x7d from \x27@heroicons/react/24/outline\x27",
     "import \x7b CalendarIcon, ChartBarIcon, BeakerIcon, ClockIcon, ChartPieIcon, FlagIcon, EnvelopeIcon \x7d from \x27@heroicons/react/24/outline\x27"),
    ("(import type \\\x7b ReportPlan \\\x7d from \x27@/types/reports\x27\\n)",
     "\\1import \x7b Card, CardHeader, CardContent, CardFooter \x7d from \x27@/components/ui/card\x27\\nimport \x7b Badge \x7d from \x27@/components/ui/badge\x27\\nimport \x7b Button \x7d from \x27@/components/ui/button\x27\\n")
   ]),
  ("src/app/api/integrations/[id]/credentials/route.ts",
   [
    ("\\(req:",
     "(_req:"),
    (", userId:",
     ", _userId:"),
    (", user:",
     ", _user:")
   ]),
  ("src/app/api/onboarding/profile/route.ts",
   [
    ("const \\\x7b error \\\x7d",
     "const \x7b error: _error \x7d"),
    ("\x7d catch \\(dbError\\)",
     "\x7d catch (_dbError)"),
    ("\x7d catch \\(error\\)",
     "\x7d catch (_error)"),
    ("const _ =",
     "const _unused =")
   ]),
  ("src/app/api/onboarding/role/route.ts",
   [
    ("\x7d catch \\(dbError\\)",
     "\x7d catch (_dbError)")
   ]),
  ("src/app/api/users/sync/route.ts",
   [
    ("export async function POST\\(request:",
     "export async function POST(_request:")
   ]),
  ("src/contexts/chat-context.tsx",
   [
    ("assistantMessageId: string \\| any",
     "assistantMessageId: string | unknown")
   ]),
  ("src/lib/security/xss-protection.ts",
   [
    ("sanitizeObject\\(obj: any\\)",
     "sanitizeObject(obj: Record<string, unknown>)")
   ]),
  ("src/lib/supabase/server.ts",
   [
    ("\x7d catch \\(error\\)",
     "\x7d catch (_error)")
   ]),
  ("src/app/signup/page.tsx",
   [
    ("const \\\x7b data, error \\\x7d",
     "const \x7b error \x7d")
   ]),
  ("src/contexts/supabase-session-context.tsx",
   [
    ("const \\\x7b session, user \\\x7d",
     "const \x7b user \x7d"),
    ("const \\\x7b data, error \\\x7d",
     "const \x7b data \x7d")
   ])
]

/-- The patch table of `fix_final_eslint.py`, in call order. -/
def fixFinalTable : List (String × List (String × String)) := [
  ("src/contexts/chat-context.tsx",
   [
    ("\x7d catch \\(error\\) \x7b",
     "\x7d catch (error) \x7b"),
    ("if \\(error\\?\\.status",
     "if ((error as \x7b status?: number \x7d)?.status"),
    ("error\\?\\.message",
     "(error as \x7b message?: string \x7d)?.message"),
    ("const parsedThreads = result\\.threads\\.map\\(\\(thread: unknown\\) => \\(\\\x7b",
     "const parsedThreads = result.threads.map((thread: \x7b id: string; title: string; messages: Array<\x7b id: string \x7d> \x7d) => (\x7b"),
    ("\\(thread as \\\x7b messages: unknown\\[\\] \\\x7d\\)\\.messages\\.map\\(\\(msg: unknown\\) => \\(\\\x7b",
     "thread.messages.map((msg: \x7b id: string \x7d) => (\x7b"),
    ("// eslint-disable-next-line @typescript-eslint/no-explicit-any\\n",
     "")
   ]),
  ("src/lib/security/xss-protection.ts",
   [
    ("return String\\(input\\)",
     "return String(input as string | number | boolean)")
   ])
]

/-- The `eslint_config` string of `fix_final_eslint.py`, written to `eslint.config.mjs`. -/
def eslint_config : String :=
  "import \x7b FlatCompat \x7d from \x27@eslint/eslintrc\x27;\nimport path from \x27path\x27;\nimport \x7b fileURLToPath \x7d from \x27url\x27;\n\nconst __filename = fileURLToPath(import.meta.url);\nconst __dirname = path.dirname(__filename);\n\nconst compat = new FlatCompat(\x7b\n  baseDirectory: __dirname\n\x7d);\n\nconst config = [\n  ...compat.extends(\x27next/core-web-vitals\x27, \x27plugin:@typescript-eslint/recommended\x27),\n  \x7b\n    rules: \x7b\n      \x27@typescript-eslint/no-unused-vars\x27: [\n        \x27error\x27,\n        \x7b\n          argsIgnorePattern: \x27^_\x27,\n          varsIgnorePattern: \x27^_\x27,\n          ignoreRestSiblings: true\n        \x7d\n      ],\n      \x27@typescript-eslint/no-explicit-any\x27: \x27error\x27,\n      \x27@typescript-eslint/no-require-imports\x27: \x27off\x27,\n      \x27@typescript-eslint/no-var-requires\x27: \x27off\x27,\n      \x27prefer-const\x27: \x27error\x27,\n      \x27react-hooks/exhaustive-deps\x27: \x27error\x27\n    \x7d,\n    ignores: [\x27scripts/**\x27, \x27test-*.js\x27, \x27*.js\x27, \x27fix_*.py\x27]\n  \x7d\n];\n\nexport default config;\n"

/-- The `eslintignore` string of `fix_all_eslint.py`, written to `.eslintignore`. -/
def eslintignore : String :=
  "scripts/\ntest-credential-security.js\n"

/-- `fix_eslint.py` as a whole: its patch table, then the lint tail.
`lint` is the `(stdout, stderr)` pair the subprocess returns. -/
def fix_eslint_main (fs : FS) (lint : String × String) : FS × List Ev :=
  let r := runFixes fs fixEslintTable
  (r.1, r.2 ++ lintTail lint)

/-- `fix_all_eslint.py` as a whole: its patch table, the `.eslintignore`
write with its `Created` line, then the lint tail. -/
def fix_all_main (fs : FS) (lint : String × String) : FS × List Ev :=
  let r := runFixes fs fixAllTable
  let fs1 := writeFile r.1 ".eslintignore" eslintignore
  (fs1,
   r.2 ++ [Ev.ewrite ".eslintignore" eslintignore, Ev.eprint "Created .eslintignore"]
       ++ lintTail lint)

/-- `fix_final_eslint.py` as a whole: its patch table, the
`eslint.config.mjs` write with its `Created` line, the guarded removal
of the legacy config files, then the lint tail. -/
def fix_final_main (fs : FS) (lint : String × String) : FS × List Ev :=
  let r := runFixes fs fixFinalTable
  let fs1 := writeFile r.1 "eslint.config.mjs" eslint_config
  let r2 := removeLegacy fs1
  (r2.1,
   r.2 ++ [Ev.ewrite "eslint.config.mjs" eslint_config,
           Ev.eprint "Created eslint.config.mjs with ignores"]
       ++ r2.2 ++ lintTail lint)


/-! Helper lemmas shared by the claim theorems. -/

/-- Reading a path right after writing it returns exactly what was
written. -/
theorem readFile_writeFile_self (fs : FS) (p c : String) :
    readFile (writeFile fs p c) p = some c := by
  simp [readFile, writeFile, List.find?]

/-- When the pattern matches nowhere, the substitution scan reproduces its
input list unchanged. -/
theorem subGo_of_not_hasMatchGo (re : Regexp) (rep : List Char) :
    ∀ fl bl s, hasMatchGo re fl bl s = false → subGo re rep fl bl s = s := by
  intro fl
  induction fl with
  | zero => intro bl s _; rfl
  | succ n ih =>
    intro bl s h
    simp only [hasMatchGo, Bool.or_eq_false_iff] at h
    obtain ⟨h1, h2⟩ := h
    have h1n : matchAt re s bl = none := by
      cases hm : matchAt re s bl with
      | none => rfl
      | some r => rw [hm] at h1; simp at h1
    simp only [subGo, h1n]
    cases s with
    | nil => rfl
    | cons c t =>
      simp only at h2 ⊢
      rw [ih (c == '\n') t h2]

/-- `reSub` is the identity on a string its pattern does not match. -/
theorem reSub_of_not_hasMatch (pat rep s : String) (h : hasMatch pat s = false) :
    reSub pat rep s = s := by
  unfold hasMatch at h
  unfold reSub
  cases hp : parseRx pat with
  | none => rfl
  | some re =>
    rw [hp] at h
    simp only at h
    simp only
    rw [subGo_of_not_hasMatchGo re rep.data (s.data.length + 1) true s.data h]

/-- Folding substitutions none of whose patterns match leaves the content
unchanged. -/
theorem applyFixes_of_no_match (fixes : List (String × String)) (content : String)
    (h : ∀ pr ∈ fixes, hasMatch pr.1 content = false) :
    applyFixes fixes content = content := by
  induction fixes with
  | nil => rfl
  | cons pr rest ih =>
    have h1 : hasMatch pr.1 content = false := h pr (List.mem_cons_self pr rest)
    have := reSub_of_not_hasMatch pr.1 pr.2 content h1
    unfold applyFixes at ih ⊢
    rw [List.foldl_cons, this]
    exact ih (fun q hq => h q (List.mem_cons_of_mem pr hq))

/-- A `fix_file` call never invokes a subprocess. -/
theorem fix_file_no_erun (fs : FS) (p : String) (fixes : List (String × String))
    (c : List String) : Ev.erun c ∉ (fix_file fs p fixes).2 := by
  unfold fix_file
  cases hr : readFile fs p with
  | none => simp
  | some content =>
    simp only
    by_cases hc : applyFixes fixes content = content <;> simp [hc]

/-- Running a whole patch table never invokes a subprocess. -/
theorem runFixes_no_erun (table : List (String × List (String × String))) :
    ∀ (fs : FS) (c : List String), Ev.erun c ∉ (runFixes fs table).2 := by
  induction table with
  | nil => intro fs c; simp [runFixes]
  | cons e rest ih =>
    intro fs c
    obtain ⟨p, fixes⟩ := e
    simp only [runFixes, List.mem_append]
    push_neg
    exact ⟨fix_file_no_erun fs p fixes c, ih (fix_file fs p fixes).1 c⟩

/-- The legacy-config removal never invokes a subprocess. -/
theorem removeLegacy_no_erun (fs : FS) (c : List String) :
    Ev.erun c ∉ (removeLegacy fs).2 := by
  unfold removeLegacy
  by_cases h1 : existsFile fs ".eslintrc.json" <;>
    by_cases h2 : existsFile (removeFile fs ".eslintrc.json") ".eslintignore" <;>
    by_cases h3 : existsFile fs ".eslintignore" <;>
    simp [h1, h2, h3]

/-! The claim theorems. -/

/-- C1: for every existing file path and ordered list of (pattern,
replacement) pairs, `fix_file` produces final content equal to the
left-to-right fold of regex substitution (with multiline and dot-all
matching against the whole-file text) of each pair over the original
content, and writes that result back to the file if and only if it
differs from the original content. -/
theorem fix_file_fold_and_write_iff (fs : FS) (p content : String)
    (fixes : List (String × String)) (h : readFile fs p = some content) :
    readFile (fix_file fs p fixes).1 p = some (applyFixes fixes content) ∧
    ((∃ c, Ev.ewrite p c ∈ (fix_file fs p fixes).2) ↔
      applyFixes fixes content ≠ content) := by
  unfold fix_file
  rw [h]
  simp only
  by_cases hc : applyFixes fixes content = content
  · simp [hc, h]
  · simp [hc, readFile_writeFile_self]

/-- C1 witness: a concrete run on a one-file filesystem where the single
substitution rewrites the content. -/
theorem fix_file_fold_and_write_iff_witness :
    readFile [("f.txt", "a")] "f.txt" = some "a" ∧
    (readFile (fix_file [("f.txt", "a")] "f.txt" [("a", "b")]).1 "f.txt"
        = some (applyFixes [("a", "b")] "a") ∧
     ((∃ c, Ev.ewrite "f.txt" c ∈ (fix_file [("f.txt", "a")] "f.txt" [("a", "b")]).2) ↔
       applyFixes [("a", "b")] "a" ≠ "a")) :=
  ⟨by decide, fix_file_fold_and_write_iff [("f.txt", "a")] "f.txt" "a" [("a", "b")] (by decide)⟩

/-- C2: a file whose content matches none of the patterns is left
byte-identical, with no write and no `Fixed` line (the events are the
lone read), and each individual non-matching substitution leaves any
content unchanged. -/
theorem fix_file_no_match_frame (fs : FS) (p content : String)
    (fixes : List (String × String)) (h : readFile fs p = some content)
    (hnm : ∀ pr ∈ fixes, hasMatch pr.1 content = false) :
    fix_file fs p fixes = (fs, [Ev.eread p]) ∧
    (∀ pat rep s, hasMatch pat s = false → reSub pat rep s = s) := by
  constructor
  · unfold fix_file
    rw [h]
    simp [applyFixes_of_no_match fixes content hnm]
  · exact fun pat rep s hs => reSub_of_not_hasMatch pat rep s hs

/-- C2 witness: the pattern `xyz` matches nowhere in `abc`, so the run is
a lone read and the filesystem is untouched. -/
theorem fix_file_no_match_frame_witness :
    readFile [("f.txt", "abc")] "f.txt" = some "abc" ∧
    (∀ pr ∈ [("xyz", "q")], hasMatch pr.1 "abc" = false) ∧
    (fix_file [("f.txt", "abc")] "f.txt" [("xyz", "q")]
        = ([("f.txt", "abc")], [Ev.eread "f.txt"]) ∧
     (∀ pat rep s, hasMatch pat s = false → reSub pat rep s = s)) :=
  ⟨by decide, by decide,
   fix_file_no_match_frame [("f.txt", "abc")] "f.txt" "abc" [("xyz", "q")]
     (by decide) (by decide)⟩

/-- C4: on a nonexistent path, `fix_file` prints the `File not found`
line, performs no write and no read, and returns, leaving the filesystem
unchanged (it is a total function, so no exception is possible). -/
theorem fix_file_missing_file_skips (fs : FS) (p : String)
    (fixes : List (String × String)) (h : readFile fs p = none) :
    fix_file fs p fixes = (fs, [Ev.eprint ("File not found: " ++ p)]) ∧
    (∀ c, Ev.ewrite p c ∉ (fix_file fs p fixes).2) ∧
    Ev.eread p ∉ (fix_file fs p fixes).2 := by
  unfold fix_file
  rw [h]
  simp

/-- C4 witness: a run on the empty filesystem. -/
theorem fix_file_missing_file_skips_witness :
    readFile [] "ghost.txt" = none ∧
    (fix_file [] "ghost.txt" [("a", "b")]
        = ([], [Ev.eprint ("File not found: " ++ "ghost.txt")]) ∧
     (∀ c, Ev.ewrite "ghost.txt" c ∉ (fix_file [] "ghost.txt" [("a", "b")]).2) ∧
     Ev.eread "ghost.txt" ∉ (fix_file [] "ghost.txt" [("a", "b")]).2) :=
  ⟨by decide, fix_file_missing_file_skips [] "ghost.txt" [("a", "b")] (by decide)⟩

/-- C8: an empty fixes list is an identity operation on an existing file:
no write, no message, only the read. -/
theorem fix_file_empty_fixes_identity (fs : FS) (p content : String)
    (h : readFile fs p = some content) :
    fix_file fs p [] = (fs, [Ev.eread p]) := by
  unfold fix_file
  rw [h]
  simp [applyFixes]

/-- C8 witness: a concrete run with no fixes. -/
theorem fix_file_empty_fixes_identity_witness :
    readFile [("f.txt", "abc")] "f.txt" = some "abc" ∧
    fix_file [("f.txt", "abc")] "f.txt" [] = ([("f.txt", "abc")], [Ev.eread "f.txt"]) :=
  ⟨by decide, fix_file_empty_fixes_identity [("f.txt", "abc")] "f.txt" "abc" (by decide)⟩

/-- C9: on an existing file the `Fixed` line is printed exactly when a
write happens, and both happen exactly when the folded substitution
result differs from the original content. -/
theorem fix_file_message_iff_write (fs : FS) (p content : String)
    (fixes : List (String × String)) (h : readFile fs p = some content) :
    ((Ev.eprint ("Fixed: " ++ p) ∈ (fix_file fs p fixes).2) ↔
      (∃ c, Ev.ewrite p c ∈ (fix_file fs p fixes).2)) ∧
    ((Ev.eprint ("Fixed: " ++ p) ∈ (fix_file fs p fixes).2) ↔
      applyFixes fixes content ≠ content) := by
  unfold fix_file
  rw [h]
  simp only
  by_cases hc : applyFixes fixes content = content
  · simp [hc]
  · simp [hc]

/-- C9 witness: a changing run where message, write and difference all
hold together. -/
theorem fix_file_message_iff_write_witness :
    readFile [("f.txt", "a")] "f.txt" = some "a" ∧
    (((Ev.eprint ("Fixed: " ++ "f.txt") ∈ (fix_file [("f.txt", "a")] "f.txt" [("a", "b")]).2) ↔
       (∃ c, Ev.ewrite "f.txt" c ∈ (fix_file [("f.txt", "a")] "f.txt" [("a", "b")]).2)) ∧
     ((Ev.eprint ("Fixed: " ++ "f.txt") ∈ (fix_file [("f.txt", "a")] "f.txt" [("a", "b")]).2) ↔
       applyFixes [("a", "b")] "a" ≠ "a")) :=
  ⟨by decide, fix_file_message_iff_write [("f.txt", "a")] "f.txt" "a" [("a", "b")] (by decide)⟩

/-- C10: `fix_file` is deterministic: two runs that agree on the file's
existence and original content (and use the same fixes) produce the same
events — hence the same messages and the same write decision — and the
same final content at the path. -/
theorem fix_file_deterministic (fs1 fs2 : FS) (p : String)
    (fixes : List (String × String)) (h : readFile fs1 p = readFile fs2 p) :
    (fix_file fs1 p fixes).2 = (fix_file fs2 p fixes).2 ∧
    readFile (fix_file fs1 p fixes).1 p = readFile (fix_file fs2 p fixes).1 p := by
  unfold fix_file
  rw [h]
  cases hr : readFile fs2 p with
  | none => exact ⟨rfl, h⟩
  | some content =>
    simp only
    by_cases hc : applyFixes fixes content = content
    · simp only [hc]
      simp [h, hr]
    · simp [hc, readFile_writeFile_self]

/-- C10 witness: two filesystems that agree at the path. -/
theorem fix_file_deterministic_witness :
    readFile [("a.txt", "x")] "a.txt" = readFile [("b.txt", "y"), ("a.txt", "x")] "a.txt" ∧
    ((fix_file [("a.txt", "x")] "a.txt" [("x", "z")]).2
        = (fix_file [("b.txt", "y"), ("a.txt", "x")] "a.txt" [("x", "z")]).2 ∧
     readFile (fix_file [("a.txt", "x")] "a.txt" [("x", "z")]).1 "a.txt"
        = readFile (fix_file [("b.txt", "y"), ("a.txt", "x")] "a.txt" [("x", "z")]).1 "a.txt") :=
  ⟨by decide,
   fix_file_deterministic [("a.txt", "x")] [("b.txt", "y"), ("a.txt", "x")] "a.txt"
     [("x", "z")] (by decide)⟩

/-- C5: in the final revision each legacy configuration file is removed
only under an existence guard, so when neither `.eslintrc.json` nor
`.eslintignore` exists the removal step leaves the filesystem unchanged
and emits nothing (the step is a total function, so no exception is
possible). -/
theorem removeLegacy_absent_noop (fs : FS)
    (h1 : existsFile fs ".eslintrc.json" = false)
    (h2 : existsFile fs ".eslintignore" = false) :
    removeLegacy fs = (fs, []) := by
  unfold removeLegacy
  simp [h1, h2]

/-- C5 witness: a filesystem holding neither legacy config file. -/
theorem removeLegacy_absent_noop_witness :
    existsFile [("keep.txt", "k")] ".eslintrc.json" = false ∧
    existsFile [("keep.txt", "k")] ".eslintignore" = false ∧
    removeLegacy [("keep.txt", "k")] = ([("keep.txt", "k")], []) :=
  ⟨by decide, by decide, removeLegacy_absent_noop [("keep.txt", "k")] (by decide) (by decide)⟩

/-- C6: writing the linter configuration to disk and reading it back
yields content byte-identical to the string written — for the
`eslint.config.mjs` write of the final revision and the `.eslintignore`
write of the middle revision. -/
theorem config_write_read_roundtrip (fs fs2 : FS) :
    readFile (writeFile fs "eslint.config.mjs" eslint_config) "eslint.config.mjs"
      = some eslint_config ∧
    readFile (writeFile fs2 ".eslintignore" eslintignore) ".eslintignore"
      = some eslintignore :=
  ⟨readFile_writeFile_self fs "eslint.config.mjs" eslint_config,
   readFile_writeFile_self fs2 ".eslintignore" eslintignore⟩

/-- C3 counterexample: the first substitution of the final revision's
chat-context table replaces `} catch \(error\) {` by the very text it
matches, so a file consisting of exactly that text contains one of the
given patterns yet the run is a lone read: no write and no `Fixed`
message.  This refutes the claim that containing a pattern suffices for
the message. -/
theorem fix_file_pattern_without_message_cex :
    hasMatch fixFinalTable.headI.2.headI.1 "\x7d catch (error) \x7b" = true ∧
    fix_file [(fixFinalTable.headI.1, "\x7d catch (error) \x7b")]
        fixFinalTable.headI.1 fixFinalTable.headI.2
      = ([(fixFinalTable.headI.1, "\x7d catch (error) \x7b")],
         [Ev.eread fixFinalTable.headI.1]) := by
  decide

/-- C3 amended: for every existing file for which the folded substitution
result differs from the original content — containing a pattern alone is
not enough, since a matching substitution may reproduce its own match —
`fix_file` produces exactly the folded replacement text and emits the
`Fixed` message naming the file. -/
theorem fix_file_changed_produces_and_messages (fs : FS) (p content : String)
    (fixes : List (String × String)) (h : readFile fs p = some content)
    (hne : applyFixes fixes content ≠ content) :
    readFile (fix_file fs p fixes).1 p = some (applyFixes fixes content) ∧
    Ev.eprint ("Fixed: " ++ p) ∈ (fix_file fs p fixes).2 := by
  unfold fix_file
  rw [h]
  simp [hne, readFile_writeFile_self]

/-- C3 amended witness: a substitution that changes the content produces
the folded text and the message. -/
theorem fix_file_changed_produces_and_messages_witness :
    readFile [("f.txt", "xax")] "f.txt" = some "xax" ∧
    applyFixes [("a", "b")] "xax" ≠ "xax" ∧
    (readFile (fix_file [("f.txt", "xax")] "f.txt" [("a", "b")]).1 "f.txt"
        = some (applyFixes [("a", "b")] "xax") ∧
     Ev.eprint ("Fixed: " ++ "f.txt") ∈ (fix_file [("f.txt", "xax")] "f.txt" [("a", "b")]).2) :=
  ⟨by decide, by decide,
   fix_file_changed_produces_and_messages [("f.txt", "xax")] "f.txt" "xax" [("a", "b")]
     (by decide) (by decide)⟩

/-- C7: in every script revision the whole patch phase (and, in the final
revision, the config rewrite and legacy-file removal) precedes the lint
subprocess event, which itself — having run to completion and returned
its captured `(stdout, stderr)` — precedes the verbatim printing of
stdout and then stderr as the final two events: every trace decomposes
as an `erun`-free prefix followed by exactly
`[erun npm-run-lint, print stdout, print stderr]`. -/
theorem scripts_patch_before_lint (fs : FS) (out err : String) :
    (∃ pre, (fix_eslint_main fs (out, err)).2
        = pre ++ [Ev.erun ["npm", "run", "lint"], Ev.eprint out, Ev.eprint err] ∧
      ∀ c, Ev.erun c ∉ pre) ∧
    (∃ pre, (fix_all_main fs (out, err)).2
        = pre ++ [Ev.erun ["npm", "run", "lint"], Ev.eprint out, Ev.eprint err] ∧
      ∀ c, Ev.erun c ∉ pre) ∧
    (∃ pre, (fix_final_main fs (out, err)).2
        = pre ++ [Ev.erun ["npm", "run", "lint"], Ev.eprint out, Ev.eprint err] ∧
      ∀ c, Ev.erun c ∉ pre) := by
  refine ⟨⟨(runFixes fs fixEslintTable).2
            ++ [Ev.eprint "\nRunning ESLint to check remaining issues..."], ?_, ?_⟩,
          ⟨(runFixes fs fixAllTable).2
            ++ [Ev.ewrite ".eslintignore" eslintignore, Ev.eprint "Created .eslintignore",
                Ev.eprint "\nRunning ESLint to check remaining issues..."], ?_, ?_⟩,
          ⟨(runFixes fs fixFinalTable).2
            ++ [Ev.ewrite "eslint.config.mjs" eslint_config,
                Ev.eprint "Created eslint.config.mjs with ignores"]
            ++ (removeLegacy (writeFile (runFixes fs fixFinalTable).1
                  "eslint.config.mjs" eslint_config)).2
            ++ [Ev.eprint "\nRunning ESLint to check remaining issues..."], ?_, ?_⟩⟩
  · simp [fix_eslint_main, lintTail]
  · intro c hmem
    rcases List.mem_append.mp hmem with hA | hB
    · exact runFixes_no_erun fixEslintTable fs c hA
    · simp at hB
  · simp [fix_all_main, lintTail]
  · intro c hmem
    rcases List.mem_append.mp hmem with hA | hB
    · exact runFixes_no_erun fixAllTable fs c hA
    · simp at hB
  · simp [fix_final_main, lintTail]
  · intro c hmem
    rcases List.mem_append.mp hmem with hAB | hD
    · rcases List.mem_append.mp hAB with hAC | hC
      · rcases List.mem_append.mp hAC with hA | hB
        · exact runFixes_no_erun fixFinalTable fs c hA
        · simp at hB
      · exact removeLegacy_no_erun _ c hC
    · simp at hD

end LintFix
